import Mathlib

/-!
Shallow embedding of the model-router backend (TypeScript/Express) and
proofs about its routing decision engine and orchestration handlers.

Source files embedded:
- `src/backend/src/router.ts` — the pure routing decision engine `routeTask`
  with its static `MODEL_PROFILE` catalog.
- `src/server.ts` — the `POST /api/tasks` and `POST /api/transcribe-and-route`
  Express handlers, modelled as functions of the request plus an oracle of
  collaborator outcomes (Supabase insert/update results, random jitter),
  producing an HTTP status and a trace of persistence events.
- `src/upload.ts` — the `POST /api/upload` handler, likewise.

At the JavaScript runtime, request fields such as `sla` are arbitrary strings
(TypeScript annotations are erased), so the embedding takes `sla` and
`taskType` as `String` and `maxCostCents` as `Int`.
-/

namespace ModelRouter

/-- The `ModelName` union type of router.ts. -/
inductive ModelName
  | gpt_4_1
  | gpt_4_1_mini
  | rules_engine
  deriving DecidableEq, Repr

/-- Cost/latency profile of one backend, as in `MODEL_PROFILE`. -/
structure ModelProfile where
  costPerTask : Int
  latencyMs : Int
  deriving DecidableEq, Repr

/-- The static catalog `MODEL_PROFILE` of router.ts (lines 19-23). -/
def MODEL_PROFILE : ModelName → ModelProfile
  | .gpt_4_1 => ⟨40, 1800⟩
  | .gpt_4_1_mini => ⟨10, 600⟩
  | .rules_engine => ⟨1, 100⟩

/-- How a `ModelName` prints inside the template literal of router.ts. -/
def modelNameStr : ModelName → String
  | .gpt_4_1 => "gpt_4_1"
  | .gpt_4_1_mini => "gpt_4_1_mini"
  | .rules_engine => "rules_engine"

/-- `RouteInput` of router.ts. `sla` and `taskType` are runtime strings. -/
structure RouteInput where
  taskType : String
  sla : String
  maxCostCents : Int
  deriving DecidableEq, Repr

/-- `RouteOutput` of router.ts: exactly the four fields the source returns. -/
structure RouteOutput where
  model : ModelName
  estimatedCostCents : Int
  estimatedLatencyMs : Int
  reason : String
  deriving DecidableEq, Repr

/-- `routeTask` of router.ts (lines 25-48), mirrored statement by statement:
SLA-to-candidate mapping, the budget fallback block, then the output record
built from the chosen backend's catalog profile and the template-literal
reason string. -/
def routeTask (input : RouteInput) : RouteOutput :=
  let candidate : ModelName :=
    if input.sla = "high_quality" then .gpt_4_1
    else if input.sla = "low_latency" then .gpt_4_1_mini
    else .rules_engine
  let chosen :=
    if (MODEL_PROFILE candidate).costPerTask > input.maxCostCents then
      let chosen1 := if candidate = .gpt_4_1 then ModelName.gpt_4_1_mini else candidate
      if (MODEL_PROFILE chosen1).costPerTask > input.maxCostCents then
        ModelName.rules_engine
      else chosen1
    else candidate
  let profile := MODEL_PROFILE chosen
  { model := chosen
    estimatedCostCents := profile.costPerTask
    estimatedLatencyMs := profile.latencyMs
    reason := "Selected " ++ modelNameStr chosen ++ " based on SLA=" ++ input.sla ++
      ", taskType=" ++ input.taskType ++ ", maxCost=" ++ toString input.maxCostCents ++ "c" }

end ModelRouter

namespace ModelRouter

/-- One collaborator action in a handler's execution trace: each constructor
records the attempted Supabase/storage/notification operation in program
order, with `ok` telling whether the collaborator accepted it (supabase calls
return an error object instead of throwing, so the handler sees the outcome
and decides what to do). -/
inductive PEvent
  | taskInsert (taskId : Nat) (ok : Bool)
  | decisionInsert (taskId : Nat) (model : ModelName) (cost lat : Int) (ok : Bool)
  | runInsert (taskId : Nat) (model : ModelName) (cost lat : Int) (ok : Bool)
  | taskStatusUpdate (taskId : Nat) (status : String) (ok : Bool)
  | fileSelect (fileId : Nat) (found : Bool)
  | storageDownload (ok : Bool)
  | transcriptUpdate (transcriptId : Nat) (text : String) (ok : Bool)
  | storageUpload (ok : Bool)
  | fileInsert (fileId : Nat) (ok : Bool)
  | transcriptInsert (transcriptId : Nat) (ok : Bool)
  | notifyCall (rejected : Bool)
  | fileStatusUpdate (fileId : Nat) (status : String) (ok : Bool)
  | consoleError (msg : String)
  deriving DecidableEq, Repr

/-- Request body of `POST /api/tasks` (server.ts line 21). At runtime the
fields are whatever JSON the caller sent; `inputText` and `transcriptId` may
be absent. The handler destructures them without any validation. -/
structure TaskReq where
  taskType : String
  sla : String
  inputText : Option String
  maxCostCents : Int
  transcriptId : Option Nat
  deriving DecidableEq, Repr

/-- Collaborator outcomes for one `POST /api/tasks` invocation: the id the
database assigns to the inserted task row, whether each insert/update is
accepted, and the rounded `Math.random() * 200` latency jitter. -/
structure TasksOracle where
  newTaskId : Nat
  taskInsertOk : Bool
  decisionInsertOk : Bool
  runInsertOk : Bool
  completeUpdateOk : Bool
  jitter : Int
  deriving DecidableEq, Repr

/-- The `POST /api/tasks` handler (server.ts lines 19-86), as a function of
the request and the collaborator oracle, returning the HTTP status and the
trace of collaborator actions in program order. Mirrors the source: insert
the task (throw on error → catch → 500); call `routeTask`; insert the
routing decision (throw on error → 500); insert the model run, but on error
only `console.error` and continue; unconditionally update the task status to
completed; respond 200. -/
def postTasks (req : TaskReq) (o : TasksOracle) : Nat × List PEvent :=
  let e1 := PEvent.taskInsert o.newTaskId o.taskInsertOk
  if o.taskInsertOk then
    let routing := routeTask ⟨req.taskType, req.sla, req.maxCostCents⟩
    let e2 := PEvent.decisionInsert o.newTaskId routing.model
      routing.estimatedCostCents routing.estimatedLatencyMs o.decisionInsertOk
    if o.decisionInsertOk then
      let latency := routing.estimatedLatencyMs + o.jitter
      let e3 := PEvent.runInsert o.newTaskId routing.model
        routing.estimatedCostCents latency o.runInsertOk
      let logged := if o.runInsertOk then ([] : List PEvent)
        else [PEvent.consoleError "model_runs insert error"]
      let e4 := PEvent.taskStatusUpdate o.newTaskId "completed" o.completeUpdateOk
      (200, e1 :: e2 :: e3 :: logged ++ [e4])
    else (500, [e1, e2])
  else (500, [e1])

/-- Request body of `POST /api/transcribe-and-route` (server.ts line 101):
`fileId` and `transcriptId`, either of which may be absent. -/
structure ResumeReq where
  fileId : Option Nat
  transcriptId : Option Nat
  deriving DecidableEq, Repr

/-- Collaborator outcomes for one `POST /api/transcribe-and-route`
invocation: whether the file row is found, whether the storage download
succeeds and what text the downloaded blob decodes to, the file row's name
and storage path (used by the mock-transcript fallback), and the outcomes of
the transcript update and the task/decision/run inserts. -/
structure ResumeOracle where
  fileRowFound : Bool
  downloadOk : Bool
  extractedText : String
  fileName : String
  storagePath : String
  transcriptUpdateOk : Bool
  newTaskId : Nat
  taskInsertOk : Bool
  decisionInsertOk : Bool
  runInsertOk : Bool
  fileUpdateOk : Bool
  jitter : Int
  deriving DecidableEq, Repr

/-- The source's emptiness test `!transcriptText || transcriptText.trim().length === 0`
(server.ts line 142): true iff the decoded text is empty or all whitespace. -/
def blankText (s : String) : Bool :=
  s.data.all Char.isWhitespace

/-- The mock transcript substituted for blank content (server.ts lines 143-144). -/
def mockTranscript (fileName storagePath : String) : String :=
  "Mock transcript for " ++ fileName ++ " stored at " ++ storagePath ++
    ".\nThis simulates a real transcript generated from the uploaded file."

/-- The `POST /api/transcribe-and-route` handler (server.ts lines 99-233):
400 if `fileId` or `transcriptId` is missing; then, throwing (→ 500) on each
collaborator error in turn: select the file row, download the blob, update
the transcript with the decoded (or mock) text, insert a task with the
hard-coded inputs (summary, high_quality, ceiling 100), insert the routing
decision, insert the model run (here a run-insert error *does* throw, unlike
`/api/tasks`), then update the file status to ready and respond 200. The
created task is never marked completed by this handler. -/
def transcribeAndRoute (req : ResumeReq) (o : ResumeOracle) : Nat × List PEvent :=
  match req.fileId, req.transcriptId with
  | some fid, some tid =>
    let e1 := PEvent.fileSelect fid o.fileRowFound
    if o.fileRowFound then
      let e2 := PEvent.storageDownload o.downloadOk
      if o.downloadOk then
        let transcriptText := if blankText o.extractedText then
            mockTranscript o.fileName o.storagePath
          else o.extractedText
        let e3 := PEvent.transcriptUpdate tid transcriptText o.transcriptUpdateOk
        if o.transcriptUpdateOk then
          let e4 := PEvent.taskInsert o.newTaskId o.taskInsertOk
          if o.taskInsertOk then
            let routing := routeTask ⟨"summary", "high_quality", 100⟩
            let e5 := PEvent.decisionInsert o.newTaskId routing.model
              routing.estimatedCostCents routing.estimatedLatencyMs o.decisionInsertOk
            if o.decisionInsertOk then
              let latency := routing.estimatedLatencyMs + o.jitter
              let e6 := PEvent.runInsert o.newTaskId routing.model
                routing.estimatedCostCents latency o.runInsertOk
              if o.runInsertOk then
                let e7 := PEvent.fileStatusUpdate fid "ready" o.fileUpdateOk
                (200, [e1, e2, e3, e4, e5, e6, e7])
              else (500, [e1, e2, e3, e4, e5, e6])
            else (500, [e1, e2, e3, e4, e5])
          else (500, [e1, e2, e3, e4])
        else (500, [e1, e2, e3])
      else (500, [e1, e2])
    else (500, [e1])
  | _, _ => (400, [])

/-- Collaborator outcomes for one `POST /api/upload` invocation (upload.ts):
whether a multipart file is present, whether the storage upload and the two
row inserts are accepted, whether `N8N_FILE_WEBHOOK_URL` is configured, and
whether the `fetch` to it rejects (network failure). -/
structure UploadOracle where
  hasFile : Bool
  storageUploadOk : Bool
  newFileId : Nat
  fileInsertOk : Bool
  newTranscriptId : Nat
  transcriptInsertOk : Bool
  webhookUrlSet : Bool
  notifyRejects : Bool
  deriving DecidableEq, Repr

/-- The `POST /api/upload` handler (upload.ts lines 14-71): 400 if no file;
then, throwing (→ 500) on each collaborator error: upload the bytes to
storage, insert the `uploaded_files` row, insert the pending `transcripts`
row; then, if the webhook URL is configured, `await fetch(...)` — a rejected
fetch propagates to the catch block and becomes a 500 (the fetch's HTTP
status is never inspected); finally respond 200 with the created rows.
Nothing is ever deleted or rolled back. -/
def uploadHandler (o : UploadOracle) : Nat × List PEvent :=
  if o.hasFile then
    let e1 := PEvent.storageUpload o.storageUploadOk
    if o.storageUploadOk then
      let e2 := PEvent.fileInsert o.newFileId o.fileInsertOk
      if o.fileInsertOk then
        let e3 := PEvent.transcriptInsert o.newTranscriptId o.transcriptInsertOk
        if o.transcriptInsertOk then
          if o.webhookUrlSet then
            let e4 := PEvent.notifyCall o.notifyRejects
            if o.notifyRejects then (500, [e1, e2, e3, e4])
            else (200, [e1, e2, e3, e4])
          else (200, [e1, e2, e3])
        else (500, [e1, e2, e3])
      else (500, [e1, e2])
    else (500, [e1])
  else (400, [])

/-- Task ids of routing decisions a trace successfully persisted, in order. -/
def persistedDecisionTasks : List PEvent → List Nat
  | [] => []
  | PEvent.decisionInsert t _ _ _ true :: rest => t :: persistedDecisionTasks rest
  | _ :: rest => persistedDecisionTasks rest

/-- Whether a trace persisted the task row with the given id. -/
def taskPersisted (t : Nat) (tr : List PEvent) : Bool :=
  tr.any fun e => match e with
    | PEvent.taskInsert t2 true => t2 == t
    | _ => false

/-- Whether a trace persisted the `uploaded_files` row with the given id. -/
def filePersisted (f : Nat) (tr : List PEvent) : Bool :=
  tr.any fun e => match e with
    | PEvent.fileInsert f2 true => f2 == f
    | _ => false

/-- Whether a trace persisted the `transcripts` row with the given id. -/
def transcriptPersisted (i : Nat) (tr : List PEvent) : Bool :=
  tr.any fun e => match e with
    | PEvent.transcriptInsert i2 true => i2 == i
    | _ => false

/-- Whether a trace issued an accepted update of a task's status to
completed. -/
def markedCompleted (tr : List PEvent) : Bool :=
  tr.any fun e => match e with
    | PEvent.taskStatusUpdate _ "completed" true => true
    | _ => false

/-- Whether a trace contains a model-run insert attempt for the given task. -/
def hasRunFor (t : Nat) (tr : List PEvent) : Bool :=
  tr.any fun e => match e with
    | PEvent.runInsert t2 _ _ _ _ => t2 == t
    | _ => false

/-- Whether every model-run insert attempt in a trace is for the given task. -/
def runsOnlyFor (t : Nat) (tr : List PEvent) : Bool :=
  tr.all fun e => match e with
    | PEvent.runInsert t2 _ _ _ _ => t2 == t
    | _ => true

/-- How many routing decisions for the given task a trace persisted. -/
def decisionCountFor (t : Nat) (tr : List PEvent) : Nat :=
  (tr.filter fun e => match e with
    | PEvent.decisionInsert t2 _ _ _ true => t2 == t
    | _ => false).length

/-- Left-to-right scan: every model-run insert in the trace must be for a
task that an earlier event successfully persisted a routing decision for
(`seen` carries those task ids). -/
def runsAfterDecisions (seen : List Nat) : List PEvent → Bool
  | [] => true
  | PEvent.decisionInsert t _ _ _ ok :: rest =>
      runsAfterDecisions (if ok then t :: seen else seen) rest
  | PEvent.runInsert t _ _ _ _ :: rest =>
      seen.contains t && runsAfterDecisions seen rest
  | _ :: rest => runsAfterDecisions seen rest

end ModelRouter

namespace ModelRouter

/-- The model chosen at SLA `high_quality`: the fallback chain resolves to
`gpt_4_1` iff the ceiling covers its cost 40, else `gpt_4_1_mini` iff the
ceiling covers 10, else `rules_engine`. -/
theorem routeTask_model_hq (t : String) (c : Int) :
    (routeTask ⟨t, "high_quality", c⟩).model =
      if 40 ≤ c then ModelName.gpt_4_1
      else if 10 ≤ c then ModelName.gpt_4_1_mini
      else ModelName.rules_engine := by
  simp [routeTask, MODEL_PROFILE]
  split_ifs <;> first | rfl | omega

/-- The model chosen at SLA `low_latency`: `gpt_4_1_mini` iff the ceiling
covers its cost 10, else `rules_engine` (the chain never moves up). -/
theorem routeTask_model_ll (t : String) (c : Int) :
    (routeTask ⟨t, "low_latency", c⟩).model =
      if 10 ≤ c then ModelName.gpt_4_1_mini else ModelName.rules_engine := by
  simp [routeTask, MODEL_PROFILE]
  split_ifs <;> first | rfl | omega

/-- The model chosen for every SLA string other than `high_quality` and
`low_latency` (this covers `low_cost` and all unknown tiers): always
`rules_engine`. -/
theorem routeTask_model_other (t s : String) (c : Int)
    (h1 : s ≠ "high_quality") (h2 : s ≠ "low_latency") :
    (routeTask ⟨t, s, c⟩).model = ModelName.rules_engine := by
  simp [routeTask, MODEL_PROFILE, h1, h2]

/-- An all-accepting collaborator for `POST /api/tasks`, task id 1. -/
def okTasksOracle : TasksOracle := ⟨1, true, true, true, true, 7⟩

/-- A collaborator for `POST /api/tasks` that rejects only the model-run
insert. -/
def runFailTasksOracle : TasksOracle := ⟨1, true, true, false, true, 7⟩

/-- A well-formed task request. -/
def sampleTaskReq : TaskReq := ⟨"summary", "low_cost", some "hi", 5, none⟩

/-- A request with the text absent and a negative budget ceiling. -/
def invalidTaskReq : TaskReq := ⟨"summary", "low_cost", none, -5, none⟩

/-- An all-accepting collaborator for the resume entry point, assigning task
id 1 to the created task. -/
def okResumeOracleA : ResumeOracle :=
  ⟨true, true, "hello", "a.txt", "raw/a.txt", true, 1, true, true, true, true, 3⟩

/-- The same collaborator on a second call: the fresh task row gets id 2. -/
def okResumeOracleB : ResumeOracle :=
  ⟨true, true, "hello", "a.txt", "raw/a.txt", true, 2, true, true, true, true, 3⟩

/-- A resume request naming file 10 and transcript 20. -/
def sampleResumeReq : ResumeReq := ⟨some 10, some 20⟩

/-- An upload collaborator that accepts everything but whose notification
fetch rejects (webhook configured, network failure). -/
def notifyFailUploadOracle : UploadOracle := ⟨true, true, 5, true, 6, true, true, true⟩

/-- C1: for every SLA tier among the three known tiers and every integer
budget ceiling at least the minimal-cost backend's cost (1), `routeTask`
returns a backend whose catalog `costPerTask` is at most the ceiling. -/
theorem routeTask_respects_budget (t s : String) (c : Int)
    (hs : s = "low_latency" ∨ s = "low_cost" ∨ s = "high_quality")
    (hc : 1 ≤ c) :
    (MODEL_PROFILE (routeTask ⟨t, s, c⟩).model).costPerTask ≤ c := by
  rcases hs with h | h | h <;> subst h
  · rw [routeTask_model_ll]
    split_ifs <;> simp [ MODEL_PROFILE] <;> omega
  · rw [routeTask_model_other t "low_cost" c (by decide) (by decide)]
    simpa [ MODEL_PROFILE] using hc
  · rw [routeTask_model_hq]
    split_ifs <;> simp [ MODEL_PROFILE] <;> omega

/-- Witness for C1 at tier `high_quality`, ceiling 5. -/
theorem routeTask_respects_budget_witness :
    (MODEL_PROFILE (routeTask ⟨"x", "high_quality", 5⟩).model).costPerTask ≤ 5 :=
  routeTask_respects_budget "x" "high_quality" 5 (Or.inr (Or.inr rfl)) (by decide)

/-- C2: with SLA `high_quality`, ceiling 40 yields `gpt_4_1`, ceiling 39
falls back to `gpt_4_1_mini`, and every ceiling ≤ 0 yields `rules_engine`;
`routeTask` is a total function, so no input raises an exception. -/
theorem routeTask_high_quality_fallback (t : String) :
    (routeTask ⟨t, "high_quality", 40⟩).model = ModelName.gpt_4_1 ∧
    (routeTask ⟨t, "high_quality", 39⟩).model = ModelName.gpt_4_1_mini ∧
    ∀ c : Int, c ≤ 0 → (routeTask ⟨t, "high_quality", c⟩).model = ModelName.rules_engine := by
  refine ⟨?_, ?_, ?_⟩
  · rw [routeTask_model_hq]; norm_num
  · rw [routeTask_model_hq]; norm_num
  · intro c hc
    rw [routeTask_model_hq]
    split_ifs <;> first | rfl | (exfalso; omega)

/-- Witness for C2 at taskType "x", negative ceiling -7. -/
theorem routeTask_high_quality_fallback_witness :
    (routeTask ⟨"x", "high_quality", -7⟩).model = ModelName.rules_engine :=
  (routeTask_high_quality_fallback "x").2.2 (-7) (by decide)

/-- C3 counterexample: on the unknown SLA tier "premium" with ample budget,
`routeTask` returns a normal `RouteOutput` choosing `rules_engine` — it
silently defaults instead of failing with an `InvalidInput` error (no error
path exists in the source). -/
theorem routeTask_unknown_sla_defaults_cex :
    (routeTask ⟨"x", "premium", 50⟩).model = ModelName.rules_engine := by
  simp [routeTask, MODEL_PROFILE]

/-- C3 amended: every SLA string other than "high_quality" and "low_latency"
(including every unknown tier) is treated like `low_cost`: `routeTask`
silently returns the minimal-cost backend `rules_engine`, never an error. -/
theorem routeTask_unknown_sla_defaults (t s : String) (c : Int)
    (h1 : s ≠ "high_quality") (h2 : s ≠ "low_latency") :
    (routeTask ⟨t, s, c⟩).model = ModelName.rules_engine :=
  routeTask_model_other t s c h1 h2

/-- Witness for the amended C3 at SLA "premium". -/
theorem routeTask_unknown_sla_defaults_witness :
    (routeTask ⟨"y", "premium", 1000⟩).model = ModelName.rules_engine :=
  routeTask_unknown_sla_defaults "y" "premium" 1000 (by decide) (by decide)

/-- C9: `routeTask` is a pure Lean function of its input record alone (the
embedding carries no state and performs no I/O); calls on equal inputs agree
on every field of the output: model, estimatedCostCents, estimatedLatencyMs
and reason. -/
theorem routeTask_deterministic (i₁ i₂ : RouteInput) (h : i₁ = i₂) :
    (routeTask i₁).model = (routeTask i₂).model ∧
    (routeTask i₁).estimatedCostCents = (routeTask i₂).estimatedCostCents ∧
    (routeTask i₁).estimatedLatencyMs = (routeTask i₂).estimatedLatencyMs ∧
    (routeTask i₁).reason = (routeTask i₂).reason := by
  subst h; exact ⟨rfl, rfl, rfl, rfl⟩

/-- Witness for C9 at a concrete repeated input. -/
theorem routeTask_deterministic_witness :
    (routeTask ⟨"summary", "low_cost", 5⟩).model =
      (routeTask ⟨"summary", "low_cost", 5⟩).model ∧
    (routeTask ⟨"summary", "low_cost", 5⟩).estimatedCostCents =
      (routeTask ⟨"summary", "low_cost", 5⟩).estimatedCostCents ∧
    (routeTask ⟨"summary", "low_cost", 5⟩).estimatedLatencyMs =
      (routeTask ⟨"summary", "low_cost", 5⟩).estimatedLatencyMs ∧
    (routeTask ⟨"summary", "low_cost", 5⟩).reason =
      (routeTask ⟨"summary", "low_cost", 5⟩).reason :=
  routeTask_deterministic ⟨"summary", "low_cost", 5⟩ ⟨"summary", "low_cost", 5⟩ rfl

/-- C10: for every input, the returned model is one of the three catalog
backends and the returned estimates equal exactly that model's catalog
`costPerTask` and `latencyMs`; moreover the estimate can exceed the ceiling
(at SLA `low_cost`, ceiling 0, the cost estimate 1 exceeds the ceiling), and
the output record consists of exactly the four fields of `RouteOutput`, with
no over-budget flag. -/
theorem routeTask_output_consistent :
    (∀ i : RouteInput,
      ((routeTask i).model = ModelName.gpt_4_1 ∨
       (routeTask i).model = ModelName.gpt_4_1_mini ∨
       (routeTask i).model = ModelName.rules_engine) ∧
      (routeTask i).estimatedCostCents = (MODEL_PROFILE (routeTask i).model).costPerTask ∧
      (routeTask i).estimatedLatencyMs = (MODEL_PROFILE (routeTask i).model).latencyMs) ∧
    (routeTask ⟨"x", "low_cost", 0⟩).estimatedCostCents > 0 := by
  refine ⟨fun i => ⟨?_, rfl, rfl⟩, by simp [routeTask, MODEL_PROFILE]⟩
  cases h : (routeTask i).model
  · exact Or.inl rfl
  · exact Or.inr (Or.inl rfl)
  · exact Or.inr (Or.inr rfl)

/-- C4 counterexample: triggering the resume entry point twice for the same
already-routed file/transcript does not yield an `AlreadyRouted` error — both
calls succeed with 200, and after the two calls two routing decisions are
persisted (for two freshly created tasks, ids 1 and 2), not exactly one. -/
theorem resume_duplicate_trigger_cex :
    (transcribeAndRoute sampleResumeReq okResumeOracleA).1 = 200 ∧
    (transcribeAndRoute sampleResumeReq okResumeOracleB).1 = 200 ∧
    persistedDecisionTasks
      ((transcribeAndRoute sampleResumeReq okResumeOracleA).2 ++
       (transcribeAndRoute sampleResumeReq okResumeOracleB).2) = [1, 2] := by
  decide

/-- C4 amended: the code has no idempotency guard and defines no
`AlreadyRouted` error; a duplicate trigger for the same content is accepted
again, creating a second task with its own routing decision, so after two
accepted calls two decisions are persisted — while each individual call
persists exactly one decision, for the task it itself created. -/
theorem resume_no_idempotency_guard (f tid : Nat) (oA oB : ResumeOracle)
    (hA : oA.fileRowFound = true ∧ oA.downloadOk = true ∧ oA.transcriptUpdateOk = true ∧
      oA.taskInsertOk = true ∧ oA.decisionInsertOk = true ∧ oA.runInsertOk = true)
    (hB : oB.fileRowFound = true ∧ oB.downloadOk = true ∧ oB.transcriptUpdateOk = true ∧
      oB.taskInsertOk = true ∧ oB.decisionInsertOk = true ∧ oB.runInsertOk = true) :
    (transcribeAndRoute ⟨some f, some tid⟩ oA).1 = 200 ∧
    (transcribeAndRoute ⟨some f, some tid⟩ oB).1 = 200 ∧
    persistedDecisionTasks (transcribeAndRoute ⟨some f, some tid⟩ oA).2 = [oA.newTaskId] ∧
    persistedDecisionTasks
      ((transcribeAndRoute ⟨some f, some tid⟩ oA).2 ++
       (transcribeAndRoute ⟨some f, some tid⟩ oB).2) = [oA.newTaskId, oB.newTaskId] := by
  obtain ⟨h1, h2, h3, h4, h5, h6⟩ := hA
  obtain ⟨g1, g2, g3, g4, g5, g6⟩ := hB
  simp [transcribeAndRoute, persistedDecisionTasks, h1, h2, h3, h4, h5, h6,
    g1, g2, g3, g4, g5, g6]

/-- Witness for the amended C4 at the sample request and oracles. -/
theorem resume_no_idempotency_guard_witness :
    (transcribeAndRoute ⟨some 10, some 20⟩ okResumeOracleA).1 = 200 ∧
    (transcribeAndRoute ⟨some 10, some 20⟩ okResumeOracleB).1 = 200 ∧
    persistedDecisionTasks (transcribeAndRoute ⟨some 10, some 20⟩ okResumeOracleA).2 = [1] ∧
    persistedDecisionTasks
      ((transcribeAndRoute ⟨some 10, some 20⟩ okResumeOracleA).2 ++
       (transcribeAndRoute ⟨some 10, some 20⟩ okResumeOracleB).2) = [1, 2] :=
  resume_no_idempotency_guard 10 20 okResumeOracleA okResumeOracleB
    ⟨rfl, rfl, rfl, rfl, rfl, rfl⟩ ⟨rfl, rfl, rfl, rfl, rfl, rfl⟩

/-- C5 counterexample: a create request with the text absent and a negative
budget ceiling is not rejected with `InvalidInput`: with an accepting
persistence collaborator the handler returns 200 and a Task row is
persisted. -/
theorem create_skips_validation_cex :
    (postTasks invalidTaskReq okTasksOracle).1 = 200 ∧
    taskPersisted 1 (postTasks invalidTaskReq okTasksOracle).2 = true := by
  decide

/-- C5 amended: the create handler performs no input validation at all — for
every request, including ones with absent text or a negative ceiling, its
very first action is the task insert attempt (so nothing is rejected before
a state change is attempted), and whenever the persistence collaborator
accepts that insert a Task is persisted; collaborator rejections surface as
a generic 500, not as `InvalidInput`. -/
theorem create_no_validation (req : TaskReq) (o : TasksOracle) :
    (postTasks req o).2.head? = some (PEvent.taskInsert o.newTaskId o.taskInsertOk) ∧
    (o.taskInsertOk = true → taskPersisted o.newTaskId (postTasks req o).2 = true) ∧
    (o.taskInsertOk = false → (postTasks req o).1 = 500) := by
  obtain ⟨id, b1, b2, b3, b4, j⟩ := o
  cases b1 <;> cases b2 <;> cases b3 <;> cases b4 <;>
    simp [postTasks, taskPersisted]

/-- Witness for the amended C5 at the invalid request. -/
theorem create_no_validation_witness :
    (postTasks invalidTaskReq okTasksOracle).2.head? =
      some (PEvent.taskInsert 1 true) ∧
    taskPersisted 1 (postTasks invalidTaskReq okTasksOracle).2 = true := by
  have h := create_no_validation invalidTaskReq okTasksOracle
  exact ⟨h.1, h.2.1 rfl⟩

/-- C6 counterexample: when the model-run (ExecutionRecord) insert fails,
the `POST /api/tasks` handler still marks the task completed and responds
200 — the dependency failure is neither surfaced as a 5xx nor does it stop
completion. -/
theorem run_insert_failure_still_completes_cex :
    (postTasks sampleTaskReq runFailTasksOracle).1 = 200 ∧
    markedCompleted (postTasks sampleTaskReq runFailTasksOracle).2 = true := by
  decide

/-- C6 amended: a task-insert or decision-insert failure is surfaced as a
500 and the task is never marked completed; but a model-run insert failure
is only logged (`console.error`) — the handler still marks the task
completed and responds 200. -/
theorem dependency_failure_handling (req : TaskReq) (o : TasksOracle) :
    (o.taskInsertOk = false →
      (postTasks req o).1 = 500 ∧ markedCompleted (postTasks req o).2 = false) ∧
    (o.taskInsertOk = true → o.decisionInsertOk = false →
      (postTasks req o).1 = 500 ∧ markedCompleted (postTasks req o).2 = false) ∧
    (o.taskInsertOk = true → o.decisionInsertOk = true → o.runInsertOk = false →
      o.completeUpdateOk = true →
      (postTasks req o).1 = 200 ∧ markedCompleted (postTasks req o).2 = true ∧
      PEvent.consoleError "model_runs insert error" ∈ (postTasks req o).2) := by
  obtain ⟨id, b1, b2, b3, b4, j⟩ := o
  cases b1 <;> cases b2 <;> cases b3 <;> cases b4 <;>
    simp [postTasks, markedCompleted]

/-- Witness for the amended C6: model-run insert fails, everything else
accepted. -/
theorem dependency_failure_handling_witness :
    (postTasks sampleTaskReq runFailTasksOracle).1 = 200 ∧
    markedCompleted (postTasks sampleTaskReq runFailTasksOracle).2 = true := by
  have h := (dependency_failure_handling sampleTaskReq runFailTasksOracle).2.2 rfl rfl rfl rfl
  exact ⟨h.1, h.2.1⟩

/-- C7: in every invocation of either routing entry point, all model-run
inserts concern only the task that invocation created, every model-run
insert is preceded by a successfully persisted routing decision for that
task, and whenever a model run was attempted the trace persisted exactly the
one routing decision of that task — so an ExecutionRecord is never persisted
for a task that has no persisted RoutingDecision. -/
theorem postTasks_audit_order (req : TaskReq) (o : TasksOracle) :
    runsAfterDecisions [] (postTasks req o).2 = true ∧
    runsOnlyFor o.newTaskId (postTasks req o).2 = true ∧
    (hasRunFor o.newTaskId (postTasks req o).2 = true →
      persistedDecisionTasks (postTasks req o).2 = [o.newTaskId]) := by
  obtain ⟨id, b1, b2, b3, b4, j⟩ := o
  cases b1 <;> cases b2 <;> cases b3 <;> cases b4 <;>
    simp [postTasks, runsAfterDecisions, runsOnlyFor, hasRunFor, persistedDecisionTasks]

set_option maxHeartbeats 1000000 in
theorem resume_audit_order (req' : ResumeReq) (o' : ResumeOracle) :
    runsAfterDecisions [] (transcribeAndRoute req' o').2 = true ∧
    runsOnlyFor o'.newTaskId (transcribeAndRoute req' o').2 = true ∧
    (hasRunFor o'.newTaskId (transcribeAndRoute req' o').2 = true →
      persistedDecisionTasks (transcribeAndRoute req' o').2 = [o'.newTaskId]) := by
  obtain ⟨fid, tid⟩ := req'
  obtain ⟨c1, c2, tx, fn, sp, c3, id, c4, c5, c6, c7, j⟩ := o'
  cases fid <;> cases tid <;>
    cases c1 <;> cases c2 <;> cases c3 <;> cases c4 <;> cases c5 <;> cases c6 <;>
    simp [transcribeAndRoute, runsAfterDecisions, runsOnlyFor, hasRunFor,
      persistedDecisionTasks]

theorem decision_before_run (req : TaskReq) (o : TasksOracle)
    (req' : ResumeReq) (o' : ResumeOracle) :
    (runsAfterDecisions [] (postTasks req o).2 = true ∧
     runsOnlyFor o.newTaskId (postTasks req o).2 = true ∧
     (hasRunFor o.newTaskId (postTasks req o).2 = true →
       persistedDecisionTasks (postTasks req o).2 = [o.newTaskId])) ∧
    (runsAfterDecisions [] (transcribeAndRoute req' o').2 = true ∧
     runsOnlyFor o'.newTaskId (transcribeAndRoute req' o').2 = true ∧
     (hasRunFor o'.newTaskId (transcribeAndRoute req' o').2 = true →
       persistedDecisionTasks (transcribeAndRoute req' o').2 = [o'.newTaskId])) :=
  ⟨postTasks_audit_order req o, resume_audit_order req' o'⟩

/-- Witness for C7 at the sample request and all-accepting oracles. -/
theorem decision_before_run_witness :
    runsAfterDecisions [] (postTasks sampleTaskReq okTasksOracle).2 = true ∧
    persistedDecisionTasks (postTasks sampleTaskReq okTasksOracle).2 = [1] := by
  have h := (decision_before_run sampleTaskReq okTasksOracle
    sampleResumeReq okResumeOracleA).1
  exact ⟨h.1, h.2.2 rfl⟩

/-- C8 counterexample: with the webhook configured and all inserts accepted,
a rejected notification fetch is not swallowed — the upload handler's catch
block returns 500 to the caller. -/
theorem notify_rejection_propagates_cex :
    (uploadHandler notifyFailUploadOracle).1 = 500 := by
  decide

/-- C8 amended: a rejected notification fetch propagates to the caller as a
500 (it is not swallowed, and nothing is logged for it), but the
already-created artifact and transcript rows are not rolled back — they
remain persisted; when the webhook is unconfigured, or the fetch resolves
(its HTTP status is never inspected), the upload succeeds with 200. -/
theorem upload_notify_behavior (o : UploadOracle)
    (h1 : o.hasFile = true) (h2 : o.storageUploadOk = true)
    (h3 : o.fileInsertOk = true) (h4 : o.transcriptInsertOk = true) :
    (o.webhookUrlSet = true → o.notifyRejects = true →
      (uploadHandler o).1 = 500 ∧
      filePersisted o.newFileId (uploadHandler o).2 = true ∧
      transcriptPersisted o.newTranscriptId (uploadHandler o).2 = true) ∧
    (o.webhookUrlSet = false ∨ o.notifyRejects = false →
      (uploadHandler o).1 = 200) := by
  obtain ⟨hf, su, fid, fi, ti, tri, ws, nr⟩ := o
  cases ws <;> cases nr <;>
    simp_all [uploadHandler, filePersisted, transcriptPersisted]

/-- Witness for the amended C8: webhook set, notify rejects. -/
theorem upload_notify_behavior_witness :
    (uploadHandler notifyFailUploadOracle).1 = 500 ∧
    filePersisted 5 (uploadHandler notifyFailUploadOracle).2 = true ∧
    transcriptPersisted 6 (uploadHandler notifyFailUploadOracle).2 = true :=
  (upload_notify_behavior notifyFailUploadOracle rfl rfl rfl rfl).1 rfl rfl

end ModelRouter
